import Mathlib

/-!
Verification development for `src/weather_gui.py` (Ashh8050/weather-app).

The program is sequential request/response glue: it builds HTTP query
parameters, interprets JSON responses, and mutates display widgets. We embed
it shallowly: every network interaction's outcome is an explicit input
(`NetOutcome` / `IconOutcome`), widget state is a `Display` record, modal
message boxes and issued requests are collected in lists, and an exception
escaping the handler is recorded in an `Option String` field. JSON numbers
never participate in arithmetic in the source (they are only formatted into
strings), so numeric JSON values are carried as their Python `str()`
rendering.
-/

namespace WeatherGui

/-- Values that can appear in a `requests` params dict: Python `None`, a
string, or a number (carried as its repr). -/
inductive PyVal where
  | pynone : PyVal
  | pystr : String → PyVal
  | pynum : String → PyVal
deriving Repr, DecidableEq

/-- Python truthiness of an optional string (`if q:`): `None` and the empty
string are falsy. -/
def pyTruthy : Option String → Bool
  | none => false
  | some s => !s.isEmpty

/-- Python f-string rendering of a value that may be `None`
(`f"\x7btemp\x7d"` shows the literal text `None` when the value is absent). -/
def pyStr (o : Option String) : String := o.getD "None"

/-- Whitespace characters removed by Python `str.strip()` (ASCII subset:
space, tab, newline, carriage return, vertical tab, form feed). -/
def pyIsSpace (c : Char) : Bool :=
  c == ' ' || c == '\t' || c == '\n' || c == '\r' ||
    c == Char.ofNat 11 || c == Char.ofNat 12

/-- Model of Python `str.strip()`: drop leading and trailing whitespace. -/
def pyStrip (s : String) : String :=
  String.mk (((s.data.dropWhile pyIsSpace).reverse.dropWhile pyIsSpace).reverse)

/-- Model of Python `str.title()` on ASCII text: an alphabetic character is
uppercased when the previous character is not alphabetic, lowercased
otherwise; other characters pass through and reset the word boundary. -/
def pyTitleAux : Bool → List Char → List Char
  | _, [] => []
  | prev, c :: cs =>
    if c.isAlpha then
      (if prev then c.toLower else c.toUpper) :: pyTitleAux true cs
    else
      c :: pyTitleAux false cs

/-- Model of Python `str.title()` (see `pyTitleAux`). -/
def pyTitle (s : String) : String := String.mk (pyTitleAux false s.data)

/-- One element of a response's `weather` list; the code reads only
`description` and `icon`, both possibly absent. -/
structure WObj where
  description : Option String
  icon : Option String
deriving Repr, DecidableEq

/-- Field view of a parsed current-conditions response body (every field the
code reads via `.get` chains, all optional). `message` is the provider error
field read in the HTTPError handler; `sys_country` stands for `sys.country`,
`main_temp` for `main.temp`, and so on. Numeric values are carried as their
Python `str()` rendering. -/
structure WeatherData where
  message : Option String
  name : Option String
  sys_country : Option String
  weather : Option (List WObj)
  main_temp : Option String
  main_feels_like : Option String
  main_humidity : Option String
  wind_speed : Option String
deriving Repr, DecidableEq

/-- One entry of a forecast response's `list` field. -/
structure FcEntry where
  dt_txt : Option String
  main_temp : Option String
  weather : Option (List WObj)
deriving Repr, DecidableEq

/-- Field view of a parsed forecast response body. -/
structure ForecastData where
  list : Option (List FcEntry)
deriving Repr, DecidableEq

/-- Field view of a parsed IP-geolocation response body. The outer `Option`
is presence of the `lat`/`lon` key; the inner `Option` is the outcome of the
`float(...)` conversion on the key's value (`none` when `float` raises). -/
structure GeoData where
  lat : Option (Option String)
  lon : Option (Option String)
deriving Repr, DecidableEq

/-- Outcome of one `requests.get` call, supplied by the environment: either
the call raised a `requests.RequestException` (connection error, timeout),
or a response arrived with an HTTP status, reason phrase, URL and a body
that either parses as JSON (`some`) or does not (`none`). -/
inductive NetOutcome (β : Type) where
  | reqExn : String → NetOutcome β
  | got : Nat → String → String → Option β → NetOutcome β
deriving Repr, DecidableEq

/-- The message `requests.Response.raise_for_status` builds for the
`HTTPError` it raises (`str(e)` of the caught exception): statuses 400-499
produce a Client Error message, 500-599 a Server Error message. -/
def httpErrorString (status : Nat) (reason url : String) : String :=
  if status < 500 then
    toString status ++ " Client Error: " ++ reason ++ " for url: " ++ url
  else
    toString status ++ " Server Error: " ++ reason ++ " for url: " ++ url

/-- Result of the body shared by `fetch_weather` / `fetch_forecast`:
the parsed JSON on success, or the exception that escaped. -/
inductive FetchResult (β : Type) where
  | ok : β → FetchResult β
  | httpError : Nat → String → String → Option β → FetchResult β
  | reqExn : String → FetchResult β
deriving Repr, DecidableEq

/-- Whether a fetch returned normally. -/
def FetchResult.isOk {β : Type} : FetchResult β → Bool
  | FetchResult.ok _ => true
  | _ => false

/-- Shared semantics of `requests.get` + `r.raise_for_status()` + `r.json()`
(src/weather_gui.py lines 27-29 and 38-40): a `RequestException` from the
GET propagates; `raise_for_status` raises `HTTPError` exactly for statuses
400-599 (the 4xx/5xx classes); on other statuses `r.json()` returns the
parsed body or raises a JSON decode error, which `requests` classifies as a
`RequestException`. -/
def runFetch {β : Type} : NetOutcome β → FetchResult β
  | NetOutcome.reqExn m => FetchResult.reqExn m
  | NetOutcome.got s reason url body =>
    if 400 ≤ s ∧ s < 600 then FetchResult.httpError s reason url body
    else
      match body with
      | some b => FetchResult.ok b
      | none => FetchResult.reqExn "Expecting value: line 1 column 1 (char 0)"

/-- Params-dict value for a float-or-None argument. -/
def optNumVal : Option String → PyVal
  | none => PyVal.pynone
  | some s => PyVal.pynum s

/-- Model of `fetch_weather` (src/weather_gui.py lines 20-29): builds the
params dict `\x7b"appid": API_KEY, "units": units\x7d`, adds `q` when `q` is
truthy and otherwise `lat` and `lon`, then performs the GET. Returns the
params actually sent together with the run's result. -/
def fetch_weather (apiKey : String) (q lat lon : Option String)
    (units : String) (net : NetOutcome WeatherData) :
    List (String × PyVal) × FetchResult WeatherData :=
  let params :=
    [("appid", PyVal.pystr apiKey), ("units", PyVal.pystr units)] ++
      (if pyTruthy q then [("q", PyVal.pystr (q.getD ""))]
       else [("lat", optNumVal lat), ("lon", optNumVal lon)])
  (params, runFetch net)

/-- Model of `fetch_forecast` (src/weather_gui.py lines 31-40): identical
parameter construction against the forecast endpoint. -/
def fetch_forecast (apiKey : String) (q lat lon : Option String)
    (units : String) (net : NetOutcome ForecastData) :
    List (String × PyVal) × FetchResult ForecastData :=
  let params :=
    [("appid", PyVal.pystr apiKey), ("units", PyVal.pystr units)] ++
      (if pyTruthy q then [("q", PyVal.pystr (q.getD ""))]
       else [("lat", optNumVal lat), ("lon", optNumVal lon)])
  (params, runFetch net)

/-- Model of `my_location` (src/weather_gui.py lines 43-50): GET against the
IP-geolocation service inside `try: ... except Exception: return None, None`.
Success requires a non-error status, a parseable JSON body, and `lat` and
`lon` keys whose values `float(...)` accepts; every failure yields
`(None, None)`. -/
def my_location (net : NetOutcome GeoData) : Option String × Option String :=
  match net with
  | NetOutcome.reqExn _ => (none, none)
  | NetOutcome.got s _ _ body =>
    if 400 ≤ s ∧ s < 600 then (none, none)
    else
      match body with
      | none => (none, none)
      | some d =>
        match d.lat, d.lon with
        | some (some a), some (some b) => (some a, some b)
        | _, _ => (none, none)

/-- Model of the `ICON_URL` template (src/weather_gui.py line 18) applied to
an icon code via `.format`. -/
def ICON_URL (code : String) : String :=
  "http://openweathermap.org/img/wn/" ++ code ++ "@2x.png"

/-- A decoded in-memory bitmap as displayed: its source bytes and the
dimensions it was resized to. -/
structure IconImage where
  data : String
  width : Nat
  height : Nat
deriving Repr, DecidableEq

/-- Combined outcome of the icon download + decode pipeline
(src/weather_gui.py lines 157-161), supplied by the environment: `okImg`
carries the decoded bytes; `fail` is any exception from the GET,
`raise_for_status`, `Image.open` or decoding. -/
inductive IconOutcome where
  | fail : IconOutcome
  | okImg : String → IconOutcome
deriving Repr, DecidableEq

/-- The visible widget state: the five text regions and the icon region of
`WeatherApp` (src/weather_gui.py lines 85-107). `icon_label` is the image
shown on the icon label (`none` = blank); `forecast_text` is the content of
the forecast text widget. -/
structure Display where
  city_label : String
  cond_label : String
  temp_label : String
  detail_label : String
  icon_label : Option IconImage
  forecast_text : String
deriving Repr, DecidableEq

/-- A modal message box: `messagebox.showinfo` or `messagebox.showerror`,
with title and message. -/
inductive Notice where
  | info : String → String → Notice
  | error : String → String → Notice
deriving Repr, DecidableEq

/-- A network request issued (or attempted) during a handler run. -/
inductive NetCall where
  | weatherReq : List (String × PyVal) → NetCall
  | forecastReq : List (String × PyVal) → NetCall
  | iconReq : String → NetCall
  | geoReq : NetCall
deriving Repr, DecidableEq

/-- Environment for one `fetch_and_display` run: the outcomes of the three
network interactions it may perform. -/
structure Env where
  weatherNet : NetOutcome WeatherData
  iconNet : IconOutcome
  forecastNet : NetOutcome ForecastData
deriving Repr, DecidableEq

/-- Result of one handler run: the final widget state, the modal notices
shown, the network calls issued, and the exception escaping the handler
(`none` when the handler returned normally). -/
structure RunOut where
  display : Display
  notices : List Notice
  calls : List NetCall
  exn : Option String
deriving Repr, DecidableEq

/-- Model of `data.get("weather", [\x7b\x7d])[0]` (src/weather_gui.py lines
141, 154, 175): an absent `weather` key defaults to a one-element list whose
element has no fields; a present empty list makes the `[0]` index raise
`IndexError`. -/
def weather0 (w : Option (List WObj)) : Except String WObj :=
  match w.getD [{ description := none, icon := none }] with
  | [] => Except.error "list index out of range"
  | x :: _ => Except.ok x

/-- Total companion of `weather0`: the element it returns when it does not
raise (first element, or the empty default object). -/
def headW (w : Option (List WObj)) : WObj :=
  match w.getD [{ description := none, icon := none }] with
  | [] => { description := none, icon := none }
  | x :: _ => x

/-- The unit suffix (src/weather_gui.py line 146):
`"°C" if units == "metric" else "°F"`. -/
def units_label_of (units : String) : String :=
  if units = "metric" then "°C" else "°F"

/-- The top-info widget updates (src/weather_gui.py lines 139-151): city,
condition, temperature and detail labels, formatted from the parsed
current-conditions data.  `w0` is the value of
`data.get("weather", [\x7b\x7d])[0]`. -/
def fillTop (d0 : Display) (units : String) (data : WeatherData)
    (w0 : WObj) : Display :=
  { d0 with
    city_label := (data.name.getD "") ++ ", " ++ (data.sys_country.getD ""),
    cond_label := pyTitle (w0.description.getD ""),
    temp_label := pyStr data.main_temp ++ " " ++ units_label_of units,
    detail_label :=
      "Feels like: " ++ pyStr data.main_feels_like ++ " " ++
        units_label_of units ++ " | Humidity: " ++
        pyStr data.main_humidity ++ "% | Wind: " ++
        pyStr data.wind_speed ++ " m/s" }

/-- The image placed on the icon label by the icon pipeline: on success the
downloaded bytes resized to 100 by 100 (src/weather_gui.py line 160); on any
failure the label is set to no image (line 164). -/
def iconImageOf (ico : IconOutcome) : Option IconImage :=
  match ico with
  | IconOutcome.okImg b => some { data := b, width := 100, height := 100 }
  | IconOutcome.fail => none

/-- The icon section (src/weather_gui.py lines 153-164): only when
`icon_code` is truthy does the code issue the icon request and reconfigure
the icon label; otherwise the label is left untouched and no request is
made. Returns the updated display and the icon requests issued. -/
def iconStep (d1 : Display) (w0 : WObj) (ico : IconOutcome) :
    Display × List NetCall :=
  if pyTruthy w0.icon then
    ({ d1 with icon_label := iconImageOf ico },
     [NetCall.iconReq (ICON_URL (w0.icon.getD ""))])
  else (d1, [])

/-- One iteration of the forecast formatting loop (src/weather_gui.py lines
172-176): propagates the `IndexError` from an entry whose `weather` value is
the empty list. -/
def formatEntry (units_label : String) (it : FcEntry) :
    Except String String :=
  match weather0 it.weather with
  | Except.error e => Except.error e
  | Except.ok w =>
    Except.ok ((it.dt_txt.getD "—") ++ " — " ++ (it.main_temp.getD "—") ++
      units_label ++ " — " ++ pyTitle (w.description.getD "") ++ "\n")

/-- The line `formatEntry` produces when it does not raise. -/
def formatLine (units_label : String) (it : FcEntry) : String :=
  (it.dt_txt.getD "—") ++ " — " ++ (it.main_temp.getD "—") ++
    units_label ++ " — " ++ pyTitle ((headW it.weather).description.getD "")
    ++ "\n"

/-- Concatenation of rendered forecast lines (the loop's `text`
accumulator). -/
def joinLines : List String → String
  | [] => ""
  | a :: rest => a ++ joinLines rest

/-- The forecast loop over the (already sliced) entry list: the concatenated
text, or the first exception. -/
def renderForecast (units_label : String) :
    List FcEntry → Except String String
  | [] => Except.ok ""
  | it :: rest =>
    match formatEntry units_label it with
    | Except.error e => Except.error e
    | Except.ok line =>
      match renderForecast units_label rest with
      | Except.error e => Except.error e
      | Except.ok tl => Except.ok (line ++ tl)

/-- Content of the forecast text widget after the forecast block
(src/weather_gui.py lines 166-186): on a successful fetch whose first five
entries all format, the concatenated lines (`fc.get("list", [])[:5]`);
any exception — fetch failure or a formatting `IndexError` — is caught by
the blanket `except` and the widget is set to the placeholder. -/
def forecastText (units_label : String) (fres : FetchResult ForecastData) :
    String :=
  match fres with
  | FetchResult.ok fc =>
    match renderForecast units_label ((fc.list.getD []).take 5) with
    | Except.ok text => text
    | Except.error _ => "No forecast available."
  | _ => "No forecast available."

/-- The modal text of the `HTTPError` branch (src/weather_gui.py lines
127-132): `e.response.json().get("message", str(e))`, with the whole
expression guarded by `except Exception`, so the provider's `message` field
when the body parses and carries one, else `str(e)` (the message
`raise_for_status` built). -/
def apiErrorMsg (s : Nat) (reason url : String) (body : Option WeatherData) :
    String :=
  match body with
  | some j =>
    match j.message with
    | some m => m
    | none => httpErrorString s reason url
  | none => httpErrorString s reason url

/-- Model of `WeatherApp.fetch_and_display` (src/weather_gui.py lines
123-186), parameterized by the initial widget state and the network
environment. The `weather` access on line 141 sits outside every `try`, so
its `IndexError` escapes the handler before any widget update. -/
def fetch_and_display (apiKey : String) (d0 : Display) (units : String)
    (q lat lon : Option String) (env : Env) : RunOut :=
  let wcall := fetch_weather apiKey q lat lon units env.weatherNet
  match wcall.2 with
  | FetchResult.httpError s reason url body =>
    { display := d0,
      notices := [Notice.error "API error" (apiErrorMsg s reason url body)],
      calls := [NetCall.weatherReq wcall.1], exn := none }
  | FetchResult.reqExn m =>
    { display := d0, notices := [Notice.error "Network error" m],
      calls := [NetCall.weatherReq wcall.1], exn := none }
  | FetchResult.ok data =>
    match weather0 data.weather with
    | Except.error e =>
      { display := d0, notices := [],
        calls := [NetCall.weatherReq wcall.1], exn := some e }
    | Except.ok w0 =>
      let st := iconStep (fillTop d0 units data w0) w0 env.iconNet
      let fcall := fetch_forecast apiKey q lat lon units env.forecastNet
      { display :=
          { st.1 with
            forecast_text := forecastText (units_label_of units) fcall.2 },
        notices := [],
        calls := [NetCall.weatherReq wcall.1] ++ st.2 ++
          [NetCall.forecastReq fcall.1],
        exn := none }

/-- Model of `WeatherApp.on_get_weather` (src/weather_gui.py lines
109-114): strip the entry text; an empty result shows the validation
notice and returns before any network call. -/
def on_get_weather (apiKey : String) (d0 : Display) (units : String)
    (cityInput : String) (env : Env) : RunOut :=
  let q := pyStrip cityInput
  if q.isEmpty then
    { display := d0,
      notices :=
        [Notice.info "Input needed"
          "Enter a city name or click Use My Location."],
      calls := [], exn := none }
  else fetch_and_display apiKey d0 units (some q) none none env

/-- Model of `WeatherApp.on_use_location` (src/weather_gui.py lines
116-121): resolve via `my_location` (the geolocation request itself is
recorded); when `lat` is `None` show the modal failure notice and return,
otherwise run the pipeline with the coordinates. -/
def on_use_location (apiKey : String) (d0 : Display) (units : String)
    (geoNet : NetOutcome GeoData) (env : Env) : RunOut :=
  let loc := my_location geoNet
  match loc.1 with
  | none =>
    { display := d0,
      notices :=
        [Notice.error "Location failed" "Could not detect location via IP."],
      calls := [NetCall.geoReq], exn := none }
  | some _ =>
    let r := fetch_and_display apiKey d0 units none loc.1 loc.2 env
    { r with calls := NetCall.geoReq :: r.calls }

/-- The device-location failure modes named by the spec, as a decidable
predicate on the geolocation outcome: network error or timeout, error HTTP
status, unparseable JSON, or `lat`/`lon` missing or not `float`-convertible.
Mirrors exactly the cases in which `my_location` yields `(None, None)`. -/
def geoFails : NetOutcome GeoData → Bool
  | NetOutcome.reqExn _ => true
  | NetOutcome.got s _ _ body =>
    if 400 ≤ s ∧ s < 600 then true
    else
      match body with
      | none => true
      | some d =>
        match d.lat, d.lon with
        | some (some _), some (some _) => false
        | _, _ => true

/-- A blank initial display, as after `create_widgets`. -/
def blankDisplay : Display :=
  { city_label := "", cond_label := "", temp_label := "", detail_label := "",
    icon_label := none, forecast_text := "" }

/-- Example well-formed current-conditions body (the spec's Bengaluru
scenario). -/
def wdOk : WeatherData :=
  { message := none, name := some "Bengaluru", sys_country := some "IN",
    weather := some [{ description := some "clear sky", icon := some "01d" }],
    main_temp := some "27.5", main_feels_like := some "28.0",
    main_humidity := some "70", wind_speed := some "3.1" }

/-- Example body with the `weather` key absent. -/
def wdNoWeather : WeatherData :=
  { message := none, name := some "Paris", sys_country := some "FR",
    weather := none, main_temp := some "10", main_feels_like := some "9",
    main_humidity := some "50", wind_speed := some "2.0" }

/-- Example body whose `weather` key holds the empty list. -/
def wdEmptyWeather : WeatherData :=
  { message := none, name := some "Paris", sys_country := some "FR",
    weather := some [], main_temp := some "10", main_feels_like := some "9",
    main_humidity := some "50", wind_speed := some "2.0" }

/-- Example body whose weather object carries no icon identifier. -/
def wdNoIcon : WeatherData :=
  { message := none, name := some "Oslo", sys_country := some "NO",
    weather := some [{ description := some "clear sky", icon := none }],
    main_temp := some "1", main_feels_like := some "0",
    main_humidity := some "40", wind_speed := some "1.0" }

/-- Example provider error body: valid JSON carrying a `message` field. -/
def wdMsg : WeatherData :=
  { message := some "city not found", name := none, sys_country := none,
    weather := none, main_temp := none, main_feels_like := none,
    main_humidity := none, wind_speed := none }

/-- Example well-formed forecast entry. -/
def fcGood : FcEntry :=
  { dt_txt := some "2025-01-01 12:00:00", main_temp := some "20.1",
    weather := some [{ description := some "light rain", icon := some "10d" }] }

/-- Second example well-formed forecast entry. -/
def fcGood2 : FcEntry :=
  { dt_txt := some "2025-01-01 15:00:00", main_temp := some "21.4",
    weather := some [{ description := some "few clouds", icon := some "02d" }] }

/-- Example forecast entry whose `weather` value is the empty list. -/
def fcBad : FcEntry :=
  { dt_txt := some "2025-01-01 18:00:00", main_temp := some "19.0",
    weather := some [] }

/-- The params/result pair of `fetch_weather`: the second component is the
shared request semantics. -/
theorem fetch_weather_snd (apiKey : String) (q lat lon : Option String)
    (units : String) (net : NetOutcome WeatherData) :
    (fetch_weather apiKey q lat lon units net).2 = runFetch net := rfl

/-- The params/result pair of `fetch_forecast`: the second component is the
shared request semantics. -/
theorem fetch_forecast_snd (apiKey : String) (q lat lon : Option String)
    (units : String) (net : NetOutcome ForecastData) :
    (fetch_forecast apiKey q lat lon units net).2 = runFetch net := rfl

/-- On a successful current-conditions fetch whose `weather` access does not
raise, `fetch_and_display` runs the whole pipeline: top info, icon step,
forecast step, no modal notice, no exception. -/
theorem fetch_and_display_ok (apiKey : String) (d0 : Display)
    (units : String) (q lat lon : Option String) (env : Env)
    (data : WeatherData) (w0 : WObj)
    (hok : runFetch env.weatherNet = FetchResult.ok data)
    (hw0 : weather0 data.weather = Except.ok w0) :
    fetch_and_display apiKey d0 units q lat lon env =
      { display :=
          { (iconStep (fillTop d0 units data w0) w0 env.iconNet).1 with
            forecast_text :=
              forecastText (units_label_of units) (runFetch env.forecastNet) },
        notices := [],
        calls :=
          [NetCall.weatherReq
              (fetch_weather apiKey q lat lon units env.weatherNet).1] ++
            (iconStep (fillTop d0 units data w0) w0 env.iconNet).2 ++
            [NetCall.forecastReq
              (fetch_forecast apiKey q lat lon units env.forecastNet).1],
        exn := none } := by
  simp only [fetch_and_display, fetch_weather_snd, fetch_forecast_snd, hok,
    hw0]

/-- On a failed forecast fetch the forecast widget shows the placeholder. -/
theorem forecastText_fail (u : String) (f : FetchResult ForecastData)
    (h : f.isOk = false) : forecastText u f = "No forecast available." := by
  cases f with
  | ok fc => simp [FetchResult.isOk] at h
  | httpError s r uu b => rfl
  | reqExn m => rfl

/-- An absent `weather` key yields the default empty weather object. -/
theorem weather0_none :
    weather0 none = Except.ok { description := none, icon := none } := rfl

/-- The `weather` access raises only on a present-and-empty list; otherwise
it returns `headW`. -/
theorem weather0_eq_headW (w : Option (List WObj)) (h : w ≠ some []) :
    weather0 w = Except.ok (headW w) := by
  cases w with
  | none => rfl
  | some l =>
    cases l with
    | nil => exact absurd rfl h
    | cons x xs => rfl

/-- A forecast entry whose `weather` value is not the empty list formats to
its line. -/
theorem formatEntry_eq (u : String) (it : FcEntry)
    (h : it.weather ≠ some []) :
    formatEntry u it = Except.ok (formatLine u it) := by
  unfold formatEntry formatLine
  rw [weather0_eq_headW it.weather h]

/-- When every entry's `weather` value is absent or non-empty, the forecast
loop renders the concatenation of the formatted lines. -/
theorem renderForecast_eq (u : String) (L : List FcEntry)
    (h : ∀ it ∈ L, it.weather ≠ some []) :
    renderForecast u L = Except.ok (joinLines (L.map (formatLine u))) := by
  induction L with
  | nil => rfl
  | cons it rest ih =>
    have h1 : it.weather ≠ some [] := h it (List.mem_cons_self it rest)
    have h2 := ih (fun x hx => h x (List.mem_cons_of_mem it hx))
    simp only [renderForecast, formatEntry_eq u it h1, h2, List.map_cons,
      joinLines]

/-- Claim C1: for every successful current-conditions response whose JSON
object does not contain the `weather` key, `fetch_and_display` renders the
condition-description field as the empty string, treats the icon identifier
as absent (the icon region is not reconfigured and no icon request is
issued), and completes without raising an exception. -/
theorem C1_missing_weather_key_safe (apiKey : String) (d0 : Display)
    (units : String) (q lat lon : Option String) (env : Env)
    (data : WeatherData)
    (hok : runFetch env.weatherNet = FetchResult.ok data)
    (hw : data.weather = none) :
    (fetch_and_display apiKey d0 units q lat lon env).exn = none ∧
    (fetch_and_display apiKey d0 units q lat lon env).display.cond_label =
      "" ∧
    (fetch_and_display apiKey d0 units q lat lon env).display.icon_label =
      d0.icon_label ∧
    ∀ u, NetCall.iconReq u ∉
      (fetch_and_display apiKey d0 units q lat lon env).calls := by
  have hw0 : weather0 data.weather =
      Except.ok { description := none, icon := none } := by rw [hw]; rfl
  rw [fetch_and_display_ok apiKey d0 units q lat lon env data
    { description := none, icon := none } hok hw0]
  have hic : iconStep (fillTop d0 units data
      { description := none, icon := none })
      { description := none, icon := none } env.iconNet =
      (fillTop d0 units data { description := none, icon := none }, []) := by
    simp [iconStep, pyTruthy]
  rw [hic]
  refine ⟨rfl, ?_, rfl, ?_⟩
  · rfl
  · intro u hu
    simp [fillTop] at hu

/-- Claim C1 witness: a concrete successful response without the `weather`
key. -/
theorem C1_missing_weather_key_safe_witness :
    runFetch (NetOutcome.got 200 "OK" "u" (some wdNoWeather)) =
      FetchResult.ok wdNoWeather ∧
    wdNoWeather.weather = none ∧
    (fetch_and_display "k" blankDisplay "metric" (some "Paris") none none
      { weatherNet := NetOutcome.got 200 "OK" "u" (some wdNoWeather),
        iconNet := IconOutcome.fail,
        forecastNet := NetOutcome.reqExn "t" }).exn = none ∧
    (fetch_and_display "k" blankDisplay "metric" (some "Paris") none none
      { weatherNet := NetOutcome.got 200 "OK" "u" (some wdNoWeather),
        iconNet := IconOutcome.fail,
        forecastNet := NetOutcome.reqExn "t" }).display.cond_label = "" := by
  refine ⟨by decide, by decide, ?_, ?_⟩
  · exact (C1_missing_weather_key_safe "k" blankDisplay "metric"
      (some "Paris") none none
      { weatherNet := NetOutcome.got 200 "OK" "u" (some wdNoWeather),
        iconNet := IconOutcome.fail,
        forecastNet := NetOutcome.reqExn "t" } wdNoWeather (by decide)
      (by decide)).1
  · exact (C1_missing_weather_key_safe "k" blankDisplay "metric"
      (some "Paris") none none
      { weatherNet := NetOutcome.got 200 "OK" "u" (some wdNoWeather),
        iconNet := IconOutcome.fail,
        forecastNet := NetOutcome.reqExn "t" } wdNoWeather (by decide)
      (by decide)).2.1

/-- Claim C2: when the current-conditions fetch succeeds (and renders) but
the forecast fetch fails in any way, the populated current-conditions
regions keep exactly the values computed from the current-conditions data,
the forecast region is set to the placeholder, and no modal notice is
shown. -/
theorem C2_forecast_failure_isolated (apiKey : String) (d0 : Display)
    (units : String) (q lat lon : Option String) (env : Env)
    (data : WeatherData) (w0 : WObj)
    (hok : runFetch env.weatherNet = FetchResult.ok data)
    (hw0 : weather0 data.weather = Except.ok w0)
    (hf : (runFetch env.forecastNet).isOk = false) :
    (fetch_and_display apiKey d0 units q lat lon env).display.city_label =
      (data.name.getD "") ++ ", " ++ (data.sys_country.getD "") ∧
    (fetch_and_display apiKey d0 units q lat lon env).display.cond_label =
      pyTitle (w0.description.getD "") ∧
    (fetch_and_display apiKey d0 units q lat lon env).display.temp_label =
      pyStr data.main_temp ++ " " ++ units_label_of units ∧
    (fetch_and_display apiKey d0 units q lat lon env).display.detail_label =
      "Feels like: " ++ pyStr data.main_feels_like ++ " " ++
        units_label_of units ++ " | Humidity: " ++
        pyStr data.main_humidity ++ "% | Wind: " ++
        pyStr data.wind_speed ++ " m/s" ∧
    (fetch_and_display apiKey d0 units q lat lon env).display.forecast_text =
      "No forecast available." ∧
    (fetch_and_display apiKey d0 units q lat lon env).notices = [] := by
  rw [fetch_and_display_ok apiKey d0 units q lat lon env data w0 hok hw0]
  rw [forecastText_fail (units_label_of units) (runFetch env.forecastNet) hf]
  unfold iconStep
  by_cases hi : pyTruthy w0.icon <;> simp [hi, fillTop]

/-- Claim C2 witness: current conditions succeed, the forecast request times
out. -/
theorem C2_forecast_failure_isolated_witness :
    (fetch_and_display "k" blankDisplay "metric" (some "Bengaluru") none
      none
      { weatherNet := NetOutcome.got 200 "OK" "u" (some wdOk),
        iconNet := IconOutcome.okImg "png",
        forecastNet := NetOutcome.reqExn "timed out" }).display.city_label =
      "Bengaluru, IN" ∧
    (fetch_and_display "k" blankDisplay "metric" (some "Bengaluru") none
      none
      { weatherNet := NetOutcome.got 200 "OK" "u" (some wdOk),
        iconNet := IconOutcome.okImg "png",
        forecastNet :=
          NetOutcome.reqExn "timed out" }).display.forecast_text =
      "No forecast available." := by
  have h := C2_forecast_failure_isolated "k" blankDisplay "metric"
    (some "Bengaluru") none none
    { weatherNet := NetOutcome.got 200 "OK" "u" (some wdOk),
      iconNet := IconOutcome.okImg "png",
      forecastNet := NetOutcome.reqExn "timed out" } wdOk
    { description := some "clear sky", icon := some "01d" } (by decide)
    (by rfl) (by decide)
  exact ⟨h.1, h.2.2.2.2.1⟩

/-- On a successful forecast fetch whose first five entries all format, the
forecast widget shows the concatenated lines. -/
theorem forecastText_ok (u : String) (fc : ForecastData) (l : List FcEntry)
    (hl : fc.list = some l) (hwf : ∀ it ∈ l.take 5, it.weather ≠ some []) :
    forecastText u (FetchResult.ok fc) =
      joinLines ((l.take 5).map (formatLine u)) := by
  simp only [forecastText]
  rw [hl, Option.getD_some, renderForecast_eq u (l.take 5) hwf]

/-- Stripping a string of whitespace characters only yields the empty
string. -/
theorem pyStrip_of_all_space (s : String) (h : s.data.all pyIsSpace = true) :
    pyStrip s = "" := by
  unfold pyStrip
  have h1 : s.data.dropWhile pyIsSpace = [] := by
    rw [List.dropWhile_eq_nil_iff]
    intro x hx
    exact List.all_eq_true.mp h x hx
  rw [h1]
  rfl

/-- Claim C3 counterexample: an HTTP status of 600 satisfies the claim's
"status >= 400", yet `requests.Response.raise_for_status` raises only for
statuses 400-599, so the handler shows no modal notice and proceeds to
update the display regions from the response body — contrary to the claim's
"a modal error notice is shown and no display region is updated". -/
theorem C3_counterexample :
    (fetch_and_display "k" blankDisplay "metric" (some "X") none none
      { weatherNet := NetOutcome.got 600 "odd" "u" (some wdOk),
        iconNet := IconOutcome.fail,
        forecastNet := NetOutcome.reqExn "t" }).notices = [] ∧
    (fetch_and_display "k" blankDisplay "metric" (some "X") none none
      { weatherNet := NetOutcome.got 600 "odd" "u" (some wdOk),
        iconNet := IconOutcome.fail,
        forecastNet := NetOutcome.reqExn "t" }).display.city_label =
      "Bengaluru, IN" ∧
    blankDisplay.city_label = "" := by decide

/-- Claim C3 (amended): for every current-conditions response with an HTTP
status in the 4xx/5xx range (those `raise_for_status` raises for), the
handler shows a modal "API error" notice whose text is the provider's
`message` field when the body is valid JSON carrying one and otherwise the
generic `HTTPError` string, updates no display region, and returns without
issuing the icon or forecast request. -/
theorem C3_amended_http_error_modal (apiKey : String) (d0 : Display)
    (units : String) (q lat lon : Option String) (env : Env)
    (s : Nat) (reason url : String) (body : Option WeatherData)
    (henv : env.weatherNet = NetOutcome.got s reason url body)
    (h4 : 400 ≤ s) (h6 : s < 600) :
    fetch_and_display apiKey d0 units q lat lon env =
      { display := d0,
        notices := [Notice.error "API error"
          (match body with
           | some j =>
             match j.message with
             | some m => m
             | none => httpErrorString s reason url
           | none => httpErrorString s reason url)],
        calls := [NetCall.weatherReq
          (fetch_weather apiKey q lat lon units env.weatherNet).1],
        exn := none } := by
  have hrf : runFetch env.weatherNet =
      FetchResult.httpError s reason url body := by
    rw [henv]
    simp [runFetch, h4, h6]
  simp only [fetch_and_display, fetch_weather_snd, hrf]
  cases body <;> rfl

/-- Claim C3 (amended) witness: a 404 whose body carries
`message = "city not found"`. -/
theorem C3_amended_http_error_modal_witness :
    fetch_and_display "k" blankDisplay "metric" (some "X") none none
      { weatherNet := NetOutcome.got 404 "Not Found" "u" (some wdMsg),
        iconNet := IconOutcome.fail,
        forecastNet := NetOutcome.reqExn "t" } =
    { display := blankDisplay,
      notices := [Notice.error "API error" "city not found"],
      calls := [NetCall.weatherReq
        [("appid", PyVal.pystr "k"), ("units", PyVal.pystr "metric"),
         ("q", PyVal.pystr "X")]],
      exn := none } := by
  have h := C3_amended_http_error_modal "k" blankDisplay "metric" (some "X")
    none none
    { weatherNet := NetOutcome.got 404 "Not Found" "u" (some wdMsg),
      iconNet := IconOutcome.fail,
      forecastNet := NetOutcome.reqExn "t" }
    404 "Not Found" "u" (some wdMsg) rfl (by decide) (by decide)
  rw [h]
  decide

/-- Claim C4: for every input that is empty or whitespace-only, the
"get weather" handler shows the validation notice, issues no network call,
and leaves every display region unchanged. -/
theorem C4_blank_input_no_network (apiKey : String) (d0 : Display)
    (units : String) (input : String) (env : Env)
    (h : input.data.all pyIsSpace = true) :
    on_get_weather apiKey d0 units input env =
      { display := d0,
        notices := [Notice.info "Input needed"
          "Enter a city name or click Use My Location."],
        calls := [], exn := none } := by
  have hq : pyStrip input = "" := pyStrip_of_all_space input h
  have he : ("" : String).isEmpty = true := rfl
  simp [on_get_weather, hq, he]

/-- Claim C4 witness: a whitespace-only input. -/
theorem C4_blank_input_no_network_witness :
    on_get_weather "k" blankDisplay "metric" "  \t "
      { weatherNet := NetOutcome.reqExn "x", iconNet := IconOutcome.fail,
        forecastNet := NetOutcome.reqExn "x" } =
      { display := blankDisplay,
        notices := [Notice.info "Input needed"
          "Enter a city name or click Use My Location."],
        calls := [], exn := none } :=
  C4_blank_input_no_network "k" blankDisplay "metric" "  \t "
    { weatherNet := NetOutcome.reqExn "x", iconNet := IconOutcome.fail,
      forecastNet := NetOutcome.reqExn "x" } (by decide)

/-- Claim C5 counterexample: a successful forecast response whose `list`
holds one entry (n = 1), but the entry's `weather` value is the empty list:
the loop's index access raises, the blanket `except` fills the region with
the placeholder, and zero formatted lines are rendered instead of
min(1,5) = 1. -/
theorem C5_counterexample :
    (fetch_and_display "k" blankDisplay "metric" (some "X") none none
      { weatherNet := NetOutcome.got 200 "OK" "u" (some wdOk),
        iconNet := IconOutcome.fail,
        forecastNet := NetOutcome.got 200 "OK" "u"
          (some { list := some [fcBad] }) }).display.forecast_text =
      "No forecast available." ∧
    formatEntry "°C" fcBad = Except.error "list index out of range" := by
  exact ⟨by decide, by rfl⟩

/-- Claim C5 (amended): for every forecast response whose `list` holds n
entries in which each of the first min(n, 5) entries' `weather` field is
absent or a non-empty list, the forecast region shows exactly the
concatenation of the first min(n, 5) formatted lines in provider order; in
particular n = 0 yields empty text and is not an error. -/
theorem C5_amended_forecast_lines (apiKey : String) (d0 : Display)
    (units : String) (q lat lon : Option String) (env : Env)
    (data : WeatherData) (w0 : WObj) (fc : ForecastData) (l : List FcEntry)
    (hok : runFetch env.weatherNet = FetchResult.ok data)
    (hw0 : weather0 data.weather = Except.ok w0)
    (hfc : runFetch env.forecastNet = FetchResult.ok fc)
    (hl : fc.list = some l)
    (hwf : ∀ it ∈ l.take 5, it.weather ≠ some []) :
    (fetch_and_display apiKey d0 units q lat lon env).display.forecast_text =
      joinLines ((l.take 5).map (formatLine (units_label_of units))) ∧
    (l.take 5).length = min 5 l.length := by
  rw [fetch_and_display_ok apiKey d0 units q lat lon env data w0 hok hw0]
  refine ⟨?_, ?_⟩
  · show forecastText (units_label_of units) (runFetch env.forecastNet) = _
    rw [hfc, forecastText_ok (units_label_of units) fc l hl hwf]
  · exact List.length_take 5 l

/-- Claim C5 (amended) witness: two well-formed entries render as exactly
two lines. -/
theorem C5_amended_forecast_lines_witness :
    (fetch_and_display "k" blankDisplay "metric" (some "X") none none
      { weatherNet := NetOutcome.got 200 "OK" "u" (some wdOk),
        iconNet := IconOutcome.fail,
        forecastNet := NetOutcome.got 200 "OK" "u"
          (some { list := some [fcGood, fcGood2] }) }).display.forecast_text
      =
      joinLines (([fcGood, fcGood2].take 5).map
        (formatLine (units_label_of "metric"))) ∧
    ([fcGood, fcGood2].take 5).length = min 5 [fcGood, fcGood2].length := by
  exact C5_amended_forecast_lines "k" blankDisplay "metric" (some "X") none
    none
    { weatherNet := NetOutcome.got 200 "OK" "u" (some wdOk),
      iconNet := IconOutcome.fail,
      forecastNet := NetOutcome.got 200 "OK" "u"
        (some { list := some [fcGood, fcGood2] }) }
    wdOk { description := some "clear sky", icon := some "01d" }
    { list := some [fcGood, fcGood2] } [fcGood, fcGood2]
    (by decide) (by rfl) (by decide) (by decide) (by decide)

/-- Claim C6 counterexample: under the imperial unit system the temperature
and feels-like suffixes are `°F`, but the wind-speed value — which the
provider returns in miles per hour — is rendered with the hardcoded suffix
`m/s` (src/weather_gui.py line 151), not a miles-per-hour unit, contrary to
the claim. -/
theorem C6_counterexample :
    (fetch_and_display "k" blankDisplay "imperial" (some "X") none none
      { weatherNet := NetOutcome.got 200 "OK" "u" (some wdOk),
        iconNet := IconOutcome.fail,
        forecastNet := NetOutcome.reqExn "t" }).display.temp_label =
      "27.5 °F" ∧
    (fetch_and_display "k" blankDisplay "imperial" (some "X") none none
      { weatherNet := NetOutcome.got 200 "OK" "u" (some wdOk),
        iconNet := IconOutcome.fail,
        forecastNet := NetOutcome.reqExn "t" }).display.detail_label =
      "Feels like: 28.0 °F | Humidity: 70% | Wind: 3.1 m/s" := by decide

/-- Claim C6 (amended): the temperature and feels-like suffixes follow the
selected unit system — `°C` for metric, `°F` for imperial — but the
wind-speed value always carries the suffix `m/s`, regardless of the unit
system. -/
theorem C6_amended_unit_suffixes (apiKey : String) (d0 : Display)
    (units : String) (q lat lon : Option String) (env : Env)
    (data : WeatherData) (w0 : WObj)
    (hok : runFetch env.weatherNet = FetchResult.ok data)
    (hw0 : weather0 data.weather = Except.ok w0) :
    (units = "metric" →
      (fetch_and_display apiKey d0 units q lat lon env).display.temp_label =
        pyStr data.main_temp ++ " " ++ "°C" ∧
      (fetch_and_display apiKey d0 units q lat lon
          env).display.detail_label =
        "Feels like: " ++ pyStr data.main_feels_like ++ " " ++ "°C" ++
          " | Humidity: " ++ pyStr data.main_humidity ++ "% | Wind: " ++
          pyStr data.wind_speed ++ " m/s") ∧
    (units = "imperial" →
      (fetch_and_display apiKey d0 units q lat lon env).display.temp_label =
        pyStr data.main_temp ++ " " ++ "°F" ∧
      (fetch_and_display apiKey d0 units q lat lon
          env).display.detail_label =
        "Feels like: " ++ pyStr data.main_feels_like ++ " " ++ "°F" ++
          " | Humidity: " ++ pyStr data.main_humidity ++ "% | Wind: " ++
          pyStr data.wind_speed ++ " m/s") := by
  rw [fetch_and_display_ok apiKey d0 units q lat lon env data w0 hok hw0]
  constructor
  · intro hm
    subst hm
    unfold iconStep
    by_cases hi : pyTruthy w0.icon <;> simp [hi, fillTop, units_label_of]
  · intro hm
    subst hm
    unfold iconStep
    by_cases hi : pyTruthy w0.icon <;> simp [hi, fillTop, units_label_of]

/-- Claim C6 (amended) witness: a metric fetch shows `27.5 °C`. -/
theorem C6_amended_unit_suffixes_witness :
    (fetch_and_display "k" blankDisplay "metric" (some "X") none none
      { weatherNet := NetOutcome.got 200 "OK" "u" (some wdOk),
        iconNet := IconOutcome.fail,
        forecastNet := NetOutcome.reqExn "t" }).display.temp_label =
      "27.5 °C" := by
  have h := (C6_amended_unit_suffixes "k" blankDisplay "metric" (some "X")
    none none
    { weatherNet := NetOutcome.got 200 "OK" "u" (some wdOk),
      iconNet := IconOutcome.fail,
      forecastNet := NetOutcome.reqExn "t" } wdOk
    { description := some "clear sky", icon := some "01d" }
    (by decide) (by rfl)).1 rfl
  rw [h.1]
  decide

/-- Claim C7 counterexample: a completed lookup whose response carries no
icon identifier leaves the previously displayed icon in place — the icon
label is only reconfigured inside the `if icon_code:` branch
(src/weather_gui.py lines 155-164) — contrary to the claim's "replaced
wholesale / shows no image when the identifier is absent". -/
theorem C7_counterexample :
    (fetch_and_display "k"
      { blankDisplay with
          icon_label := some { data := "OLD", width := 100, height := 100 } }
      "metric" (some "X") none none
      { weatherNet := NetOutcome.got 200 "OK" "u" (some wdNoIcon),
        iconNet := IconOutcome.fail,
        forecastNet := NetOutcome.reqExn "t" }).display.icon_label =
      some { data := "OLD", width := 100, height := 100 } ∧
    (fetch_and_display "k"
      { blankDisplay with
          icon_label := some { data := "OLD", width := 100, height := 100 } }
      "metric" (some "X") none none
      { weatherNet := NetOutcome.got 200 "OK" "u" (some wdNoIcon),
        iconNet := IconOutcome.fail,
        forecastNet := NetOutcome.reqExn "t" }).exn = none ∧
    (fetch_and_display "k"
      { blankDisplay with
          icon_label := some { data := "OLD", width := 100, height := 100 } }
      "metric" (some "X") none none
      { weatherNet := NetOutcome.got 200 "OK" "u" (some wdNoIcon),
        iconNet := IconOutcome.fail,
        forecastNet := NetOutcome.reqExn "t" }).display.cond_label =
      "Clear Sky" := by decide

/-- Claim C7 (amended): on a completed lookup, when the response carries a
truthy icon identifier the icon region is replaced wholesale — the newly
fetched image resized to 100 by 100 on success, no image on any
download/decode failure; when the identifier is absent or empty the icon
region is left unchanged, so a previous request's icon may remain; an icon
failure never prevents the rest of the display (condition text, forecast
region) from updating. -/
theorem C7_amended_icon_replacement (apiKey : String) (d0 : Display)
    (units : String) (q lat lon : Option String) (env : Env)
    (data : WeatherData) (w0 : WObj)
    (hok : runFetch env.weatherNet = FetchResult.ok data)
    (hw0 : weather0 data.weather = Except.ok w0) :
    (fetch_and_display apiKey d0 units q lat lon env).exn = none ∧
    (fetch_and_display apiKey d0 units q lat lon env).display.icon_label =
      (if pyTruthy w0.icon then iconImageOf env.iconNet
       else d0.icon_label) ∧
    (fetch_and_display apiKey d0 units q lat lon env).display.cond_label =
      pyTitle (w0.description.getD "") ∧
    (fetch_and_display apiKey d0 units q lat lon env).display.forecast_text =
      forecastText (units_label_of units) (runFetch env.forecastNet) := by
  rw [fetch_and_display_ok apiKey d0 units q lat lon env data w0 hok hw0]
  unfold iconStep
  by_cases hi : pyTruthy w0.icon <;> simp [hi, fillTop]

/-- Claim C7 (amended) witness: a successful icon download replaces the old
icon with the new 100 by 100 image. -/
theorem C7_amended_icon_replacement_witness :
    (fetch_and_display "k"
      { blankDisplay with
          icon_label := some { data := "OLD", width := 100, height := 100 } }
      "metric" (some "X") none none
      { weatherNet := NetOutcome.got 200 "OK" "u" (some wdOk),
        iconNet := IconOutcome.okImg "png",
        forecastNet := NetOutcome.reqExn "t" }).display.icon_label =
      some { data := "png", width := 100, height := 100 } := by
  have h := C7_amended_icon_replacement "k"
    { blankDisplay with
        icon_label := some { data := "OLD", width := 100, height := 100 } }
    "metric" (some "X") none none
    { weatherNet := NetOutcome.got 200 "OK" "u" (some wdOk),
      iconNet := IconOutcome.okImg "png",
      forecastNet := NetOutcome.reqExn "t" } wdOk
    { description := some "clear sky", icon := some "01d" }
    (by decide) (by rfl)
  rw [h.2.1]
  decide

/-- Claim C8: every request built by `fetch_weather` and `fetch_forecast`
carries the credential and unit parameters plus exactly one of the two
locational parameter sets — `q`, or `lat` and `lon` — and never both. -/
theorem C8_exactly_one_location_param_set (apiKey units : String)
    (q lat lon : Option String) (netW : NetOutcome WeatherData)
    (netF : NetOutcome ForecastData) :
    ("appid" ∈ (fetch_weather apiKey q lat lon units netW).1.map Prod.fst ∧
     "units" ∈ (fetch_weather apiKey q lat lon units netW).1.map Prod.fst ∧
     (("q" ∈ (fetch_weather apiKey q lat lon units netW).1.map Prod.fst ∧
       "lat" ∉ (fetch_weather apiKey q lat lon units netW).1.map Prod.fst ∧
       "lon" ∉ (fetch_weather apiKey q lat lon units netW).1.map Prod.fst) ∨
      ("q" ∉ (fetch_weather apiKey q lat lon units netW).1.map Prod.fst ∧
       "lat" ∈ (fetch_weather apiKey q lat lon units netW).1.map Prod.fst ∧
       "lon" ∈ (fetch_weather apiKey q lat lon units netW).1.map
         Prod.fst))) ∧
    ("appid" ∈ (fetch_forecast apiKey q lat lon units netF).1.map Prod.fst ∧
     "units" ∈ (fetch_forecast apiKey q lat lon units netF).1.map Prod.fst ∧
     (("q" ∈ (fetch_forecast apiKey q lat lon units netF).1.map Prod.fst ∧
       "lat" ∉ (fetch_forecast apiKey q lat lon units netF).1.map Prod.fst ∧
       "lon" ∉ (fetch_forecast apiKey q lat lon units netF).1.map
         Prod.fst) ∨
      ("q" ∉ (fetch_forecast apiKey q lat lon units netF).1.map Prod.fst ∧
       "lat" ∈ (fetch_forecast apiKey q lat lon units netF).1.map Prod.fst ∧
       "lon" ∈ (fetch_forecast apiKey q lat lon units netF).1.map
         Prod.fst))) := by
  constructor <;>
    (first
      | (simp only [fetch_weather]
         by_cases hq : pyTruthy q <;> simp [hq]
         )
      | (simp only [fetch_forecast]
         by_cases hq : pyTruthy q <;> simp [hq]
         ))

/-- Every geolocation failure mode makes `my_location` report
`(None, None)`. -/
theorem geoFails_my_location (g : NetOutcome GeoData)
    (h : geoFails g = true) : my_location g = (none, none) := by
  cases g with
  | reqExn m => rfl
  | got s r u body =>
    by_cases hs : 400 ≤ s ∧ s < 600
    · simp [my_location, hs]
    · cases body with
      | none => simp [my_location, hs]
      | some d =>
        have h2 : geoFails (NetOutcome.got s r u (some d)) = true := h
        simp only [geoFails, hs, if_false] at h2
        simp only [my_location, hs, if_false]
        cases hla : d.lat with
        | none => simp
        | some oa =>
          cases oa with
          | none => simp
          | some a =>
            cases hlo : d.lon with
            | none => simp
            | some ob =>
              cases ob with
              | none => simp
              | some b =>
                rw [hla, hlo] at h2
                simp at h2

/-- Claim C9: for every failing device-location lookup — network error or
timeout, error HTTP status, malformed JSON, or missing/unconvertible
latitude or longitude — the "use my location" handler shows the modal
"Location failed" notice, issues no weather, forecast or icon request,
leaves every display region unchanged, and raises no unhandled
exception. -/
theorem C9_location_failure_handled (apiKey : String) (d0 : Display)
    (units : String) (geoNet : NetOutcome GeoData) (env : Env)
    (h : geoFails geoNet = true) :
    on_use_location apiKey d0 units geoNet env =
      { display := d0,
        notices := [Notice.error "Location failed"
          "Could not detect location via IP."],
        calls := [NetCall.geoReq], exn := none } := by
  have hm := geoFails_my_location geoNet h
  simp [on_use_location, hm]

/-- Claim C9 witness: a simulated network error on the geolocation
lookup. -/
theorem C9_location_failure_handled_witness :
    on_use_location "k" blankDisplay "metric"
      (NetOutcome.reqExn "connection error")
      { weatherNet := NetOutcome.reqExn "x", iconNet := IconOutcome.fail,
        forecastNet := NetOutcome.reqExn "x" } =
      { display := blankDisplay,
        notices := [Notice.error "Location failed"
          "Could not detect location via IP."],
        calls := [NetCall.geoReq], exn := none } :=
  C9_location_failure_handled "k" blankDisplay "metric"
    (NetOutcome.reqExn "connection error")
    { weatherNet := NetOutcome.reqExn "x", iconNet := IconOutcome.fail,
      forecastNet := NetOutcome.reqExn "x" } (by decide)

/-- Claim C10: exception freedom of the rendering holds only when a present
`weather` field is a non-empty list: a successful current-conditions
response with `weather = []` makes the index access on line 141 raise an
`IndexError` that no handler catches, and a forecast entry with
`weather = []` makes the loop's index access on line 175 raise the same
`IndexError` (there, the blanket forecast `except` is what stops it). -/
theorem C10_empty_weather_list_raises (apiKey : String) (d0 : Display)
    (units : String) (q lat lon : Option String) (env : Env)
    (data : WeatherData) (ul : String) (it : FcEntry)
    (hok : runFetch env.weatherNet = FetchResult.ok data)
    (hw : data.weather = some [])
    (hit : it.weather = some []) :
    (fetch_and_display apiKey d0 units q lat lon env).exn =
      some "list index out of range" ∧
    formatEntry ul it = Except.error "list index out of range" := by
  constructor
  · simp only [fetch_and_display, fetch_weather_snd, hok]
    rw [hw]
    rfl
  · unfold formatEntry
    rw [hit]
    rfl

/-- Claim C10 witness: concrete response and forecast entry with an empty
`weather` list. -/
theorem C10_empty_weather_list_raises_witness :
    (fetch_and_display "k" blankDisplay "metric" (some "Paris") none none
      { weatherNet := NetOutcome.got 200 "OK" "u" (some wdEmptyWeather),
        iconNet := IconOutcome.fail,
        forecastNet := NetOutcome.reqExn "t" }).exn =
      some "list index out of range" ∧
    formatEntry "°C" fcBad = Except.error "list index out of range" :=
  C10_empty_weather_list_raises "k" blankDisplay "metric" (some "Paris")
    none none
    { weatherNet := NetOutcome.got 200 "OK" "u" (some wdEmptyWeather),
      iconNet := IconOutcome.fail,
      forecastNet := NetOutcome.reqExn "t" } wdEmptyWeather "°C" fcBad
    (by decide) (by decide) (by decide)

end WeatherGui
